import Mathlib

/-!
Verification development for the Regulatory-Classifier repository.

The file embeds, as Lean definitions, the decision-tree prompt selection
machinery described in src/config/PROMPT_TREE_README.md, the batch progress
subscriber of src/frontend/src/pages/BatchProgressPage.jsx, the feedback form
of the frontend, the classification normalizer of
src/frontend/src/components/ClassificationCard.jsx, and - where the backend
code itself is not part of the repository snapshot - models of the
Classification Orchestrator, the Batch Coordinator status and the
Auto-Improvement Engine taken from the specification text.
-/

namespace RegClassifier

/-! ## Evidence bundles -/

/-- A single PII finding: a detected PII entity type and the page it was found
on, as in the EvidenceBundle data model. -/
structure PiiFinding where
  ptype : String
  page : Nat
deriving DecidableEq, Repr

/-- A single keyword finding: a sensitive keyword and the page it occurs on. -/
structure KeywordFinding where
  keyword : String
  page : Nat
deriving DecidableEq, Repr

/-- Per-document evidence produced by the external detectors, as in the
EvidenceBundle data model of the spec and the fields consumed by the decision
tree of src/config/PROMPT_TREE_README.md. -/
structure EvidenceBundle where
  page_count : Nat
  image_count : Nat
  pii_findings : List PiiFinding
  keyword_findings : List KeywordFinding
  unsafe_pages : List Nat
  avg_extraction_confidence : ℚ
deriving DecidableEq, Repr

/-! ## Decision tree conditions

The condition language follows src/config/PROMPT_TREE_README.md: safety
check, PII check with include and exclude type lists, keyword check, numeric
count check, and a logical combinator over a list of nested conditions. -/

/-- A well-formed condition of the decision tree configuration language of
src/config/PROMPT_TREE_README.md. -/
inductive Condition where
  | checkSafety : Condition
  | checkPii (pii_types exclude_types : List String) : Condition
  | checkKeywords : Condition
  | checkCount (field : String) (op : String) (value : Nat) : Condition
  | combo (op : String) (conds : List Condition) : Condition

/-- Numeric field lookup for count checks: the README names image_count as the
primary field; page_count is the other numeric document field. An unknown
field reads as zero. -/
def numericField (e : EvidenceBundle) (f : String) : Nat :=
  if f == "image_count" then e.image_count
  else if f == "page_count" then e.page_count
  else 0

/-- Comparison operators of the count check, per the README operator list. An
unknown operator evaluates to false. -/
def compareNum (op : String) (x v : Nat) : Bool :=
  if op == "greater_than" then decide (v < x)
  else if op == "greater_than_or_equal" then decide (v ≤ x)
  else if op == "less_than" then decide (x < v)
  else if op == "less_than_or_equal" then decide (x ≤ v)
  else if op == "equals" then decide (x = v)
  else if op == "not_equals" then decide (x ≠ v)
  else false

mutual

/-- Condition evaluation over an evidence bundle, following the condition
semantics of the spec: safety is true iff unsafe pages exist, the PII check
is true iff some finding type is in the include list and not in the exclude
list, the keyword check is true iff keyword findings exist, the count check
compares a numeric field, and the combinator folds and, or, not over the
nested conditions left to right. -/
def evalCondition (e : EvidenceBundle) : Condition → Bool
  | Condition.checkSafety => !e.unsafe_pages.isEmpty
  | Condition.checkPii incl excl =>
      e.pii_findings.any (fun p => incl.contains p.ptype && !excl.contains p.ptype)
  | Condition.checkKeywords => !e.keyword_findings.isEmpty
  | Condition.checkCount f op v => compareNum op (numericField e f) v
  | Condition.combo op cs =>
      if op == "and" then evalAllConds e cs
      else if op == "or" then evalAnyConds e cs
      else if op == "not" then
        match cs with
        | [] => false
        | c :: _ => !evalCondition e c
      else false

/-- Left-to-right conjunction of a condition list (empty list is true). -/
def evalAllConds (e : EvidenceBundle) : List Condition → Bool
  | [] => true
  | c :: cs => evalCondition e c && evalAllConds e cs

/-- Left-to-right disjunction of a condition list (empty list is false). -/
def evalAnyConds (e : EvidenceBundle) : List Condition → Bool
  | [] => false
  | c :: cs => evalCondition e c || evalAnyConds e cs

end

/-! ## Decision tree nodes and evaluation -/

/-- A decision tree node: a leaf carrying a prompt id, or an internal node
with an advisory priority, a condition and two subtrees. -/
inductive DecisionNode where
  | leaf (prompt : String)
  | node (priority : Nat) (cond : Condition) (if_true if_false : DecisionNode)

/-- Tree evaluation: at a node, evaluate the condition and descend; at a
leaf, return its prompt id. -/
def evalTree (e : EvidenceBundle) : DecisionNode → String
  | DecisionNode.leaf p => p
  | DecisionNode.node _ c t f =>
      if evalCondition e c then evalTree e t else evalTree e f

/-- The prompt ids reachable at the leaves of a tree. -/
def leaves : DecisionNode → List String
  | DecisionNode.leaf p => [p]
  | DecisionNode.node _ _ t f => leaves t ++ leaves f

/-- The high-risk PII include list of the default tree in
src/config/PROMPT_TREE_README.md. -/
def defaultPiiTypes : List String :=
  ["SSN", "CREDIT_CARD", "CREDIT_CARD_NUMBER", "US_BANK_ACCOUNT",
   "US_ROUTING_NUMBER", "BANK_ACCOUNT"]

/-- The PII exclude list of the default tree. -/
def defaultExcludeTypes : List String :=
  ["DRIVER_LICENSE", "DRIVER"]

/-- The default decision tree, transcribed from the Example Tree JSON of
src/config/PROMPT_TREE_README.md: safety check at the root, then the
high-risk PII check, then images-and-keywords, else the base prompt. -/
def defaultTree : DecisionNode :=
  DecisionNode.node 1 Condition.checkSafety
    (DecisionNode.leaf "safety_focused")
    (DecisionNode.node 2 (Condition.checkPii defaultPiiTypes defaultExcludeTypes)
      (DecisionNode.leaf "pii_focused")
      (DecisionNode.node 3
        (Condition.combo "and"
          [Condition.checkCount "image_count" "greater_than" 0,
           Condition.checkKeywords])
        (DecisionNode.leaf "image_focused")
        (DecisionNode.leaf "base_classification")))

/-! ## Raw configuration and parsing

The tree configuration arrives as a declarative JSON document; it can be
malformed: a leaf missing its prompt, or a condition of unknown type. The raw
forms below represent such documents; parsing rejects the malformed ones and
the selector then falls back to the default tree, per the Fallback Behavior
section of src/config/PROMPT_TREE_README.md. -/

/-- A raw condition as read from the configuration document; unknownCond
stands for a condition object whose type tag is not one of the five known
condition types. -/
inductive RawCondition where
  | checkSafety : RawCondition
  | checkPii (pii_types exclude_types : List String) : RawCondition
  | checkKeywords : RawCondition
  | checkCount (field : String) (op : String) (value : Nat) : RawCondition
  | combo (op : String) (conds : List RawCondition) : RawCondition
  | unknownCond (ctype : String) : RawCondition

/-- A raw tree node as read from the configuration document; a leaf may be
missing its prompt id. -/
inductive RawNode where
  | leaf (prompt : Option String)
  | node (priority : Nat) (cond : RawCondition) (if_true if_false : RawNode)

mutual

/-- Parse one raw condition, rejecting unknown condition types and unknown
combinator operators. -/
def parseCond : RawCondition → Option Condition
  | RawCondition.checkSafety => some Condition.checkSafety
  | RawCondition.checkPii a b => some (Condition.checkPii a b)
  | RawCondition.checkKeywords => some Condition.checkKeywords
  | RawCondition.checkCount f op v => some (Condition.checkCount f op v)
  | RawCondition.combo op cs =>
      if op == "and" || op == "or" || op == "not" then
        match parseCondList cs with
        | some l => some (Condition.combo op l)
        | none => none
      else none
  | RawCondition.unknownCond _ => none

/-- Parse a list of raw conditions; fails when any element fails. -/
def parseCondList : List RawCondition → Option (List Condition)
  | [] => some []
  | c :: cs =>
      match parseCond c, parseCondList cs with
      | some a, some l => some (a :: l)
      | _, _ => none

end

/-- Parse a raw tree node; a leaf without a prompt id is rejected. -/
def parseNode : RawNode → Option DecisionNode
  | RawNode.leaf none => none
  | RawNode.leaf (some p) => some (DecisionNode.leaf p)
  | RawNode.node pr c t f =>
      match parseCond c, parseNode t, parseNode f with
      | some c2, some t2, some f2 => some (DecisionNode.node pr c2 t2 f2)
      | _, _, _ => none

/-- Prompt selection over an optional raw configuration: an absent document
or one that fails to parse falls back to the default tree; otherwise the
parsed tree is evaluated. The function is total, so a prompt id is always
produced and startup never fails on an invalid configuration. -/
def select_prompt (config : Option RawNode) (e : EvidenceBundle) : String :=
  match config with
  | none => evalTree e defaultTree
  | some raw =>
      match parseNode raw with
      | some t => evalTree e t
      | none => evalTree e defaultTree

/-- Modelled from the spec: the fixed default logic of section 4.1, written
directly from the spec words - unsafe gives the safety prompt; else
high-risk PII gives the PII prompt; else images over zero together with
keywords gives the image prompt; else the base prompt. Used to compare the
default tree against the spec description. -/
def defaultLogicSpec (e : EvidenceBundle) : String :=
  if !e.unsafe_pages.isEmpty then "safety_focused"
  else if e.pii_findings.any
      (fun p => defaultPiiTypes.contains p.ptype
        && !defaultExcludeTypes.contains p.ptype) then "pii_focused"
  else if decide (0 < e.image_count) && !e.keyword_findings.isEmpty then
    "image_focused"
  else "base_classification"

/-! ## Classification Orchestrator consensus

The orchestrator backend module is not part of the repository snapshot (only
its documentation in src/BACKENDFLOW.md and the response shape in
src/TESTING.md are), so the consensus step is modelled from the spec. -/

/-- The result of one model call: a classification label and a confidence. -/
structure ModelResult where
  classification : String
  confidence : ℚ
deriving DecidableEq, Repr

/-- The orchestrator output fields relevant to consensus, as in the
ClassificationResult data model and the response JSON of src/TESTING.md. -/
structure ClassificationResult where
  classification : String
  confidence : ℚ
  consensus : Bool
  needs_review : Bool
  secondary_result : Option ModelResult
deriving DecidableEq, Repr

/-- Modelled from the spec: the consensus rule of section 4.2 of the spec
(the orchestrator source is not under src). When both calls agree on the
classification, consensus is true and the primary confidence is reported;
on disagreement, consensus is false, the primary result stays the reported
value, the secondary result is attached, and needs review is forced true
regardless of the base review flag. With no secondary call the primary
result passes through. -/
def combineResults (primary : ModelResult) (secondary : Option ModelResult)
    (needsReviewBase : Bool) : ClassificationResult :=
  match secondary with
  | none =>
      { classification := primary.classification
        confidence := primary.confidence
        consensus := true
        needs_review := needsReviewBase
        secondary_result := none }
  | some s =>
      if s.classification == primary.classification then
        { classification := primary.classification
          confidence := primary.confidence
          consensus := true
          needs_review := needsReviewBase
          secondary_result := some s }
      else
        { classification := primary.classification
          confidence := primary.confidence
          consensus := false
          needs_review := true
          secondary_result := some s }

/-! ## Batch Coordinator status

The coordinator backend is likewise absent from the snapshot; the per-task
state machine and batch-level status are modelled from the spec (section
4.3). -/

/-- Per-document task states of the Batch Coordinator state machine. -/
inductive TaskStatus where
  | pending
  | preprocessing
  | classifying
  | done
  | error
deriving DecidableEq, Repr

/-- A task state is terminal when it is done or error. -/
def isTerminal : TaskStatus → Bool
  | TaskStatus.done => true
  | TaskStatus.error => true
  | _ => false

/-- Modelled from the spec: batch-level status of section 4.3 (the
coordinator source is not under src) - processing while any task is not
terminal, completed once all are terminal. -/
def batchStatusOf (tasks : List TaskStatus) : String :=
  if tasks.all isTerminal then "completed" else "processing"

/-! ## Batch progress subscriber

The frontend subscriber state and its message handler, embedded from
src/frontend/src/pages/BatchProgressPage.jsx lines 11 to 109. The JS object
keyed by document id is modelled as a function from keys to optional status
strings; result and preprocessing payloads are kept opaque as strings. -/

/-- An entry of the batch error list: filename and error message. -/
structure ErrorEntry where
  filename : String
  error : String
deriving DecidableEq, Repr

/-- The batchStatus react state of BatchProgressPage. -/
structure BatchStatusState where
  status : String
  total : Nat
  completed : Nat
  results : List String
  errors : List ErrorEntry

/-- The whole subscriber state of BatchProgressPage: batch status, the
per-document status map, the current file, the collected preprocessing
results, and the current phase. -/
structure SubscriberState where
  batch : BatchStatusState
  documentStatuses : String → Option String
  currentFile : String
  preprocessingResults : List String
  currentPhase : String

/-- A WebSocket batch event as consumed by the handler. In the JS source the
fields completed, current_file, document_id, filename and error are read with
falsy defaults, so an absent field is represented by the falsy value of its
type (zero or the empty string); the conditionally read preprocessing payload
is an option. -/
structure BatchMessage where
  type : String
  current_file : String
  completed : Nat
  total : Nat
  document_id : String
  filename : String
  error : String
  result : String
  preprocessing : Option String

/-- Update of the document status map, as the JS spread with a computed key. -/
def setDocStatus (m : String → Option String) (k v : String) :
    String → Option String :=
  fun x => if x == k then some v else m x

/-- The onMessage handler of createBatchWebSocket in BatchProgressPage.jsx
lines 48 to 109, branch by branch. The progress branch keeps the previous
completed count when the message count is falsy (JS or-default), marks the
named document processing only when a document id is present, and pins the
status to processing; the result and error branches append to results or
errors and increment completed by one; the complete branch sets the status
to completed and overwrites completed and total from the message; any other
type leaves the state unchanged. -/
def handleMessage (st : SubscriberState) (m : BatchMessage) : SubscriberState :=
  if m.type == "preprocessing" then
    { st with currentPhase := "preprocessing", currentFile := m.current_file }
  else if m.type == "progress" then
    let newCompleted := if m.completed == 0 then st.batch.completed else m.completed
    let st1 : SubscriberState :=
      { st with
        currentPhase := "classifying"
        batch := { st.batch with completed := newCompleted, status := "processing" }
        currentFile := m.current_file }
    if m.document_id == "" then st1
    else { st1 with
           documentStatuses := setDocStatus st1.documentStatuses m.document_id "processing" }
  else if m.type == "result" then
    let st1 : SubscriberState :=
      { st with
        currentPhase := "classifying"
        batch := { st.batch with
                   results := st.batch.results ++ [m.result]
                   completed := st.batch.completed + 1 }
        documentStatuses := setDocStatus st.documentStatuses m.document_id "completed" }
    match m.preprocessing with
    | some p => { st1 with preprocessingResults := st1.preprocessingResults ++ [p] }
    | none => st1
  else if m.type == "error" then
    { st with
      currentPhase := "classifying"
      batch := { st.batch with
                 errors := st.batch.errors ++ [{ filename := m.filename, error := m.error }]
                 completed := st.batch.completed + 1 }
      documentStatuses := setDocStatus st.documentStatuses m.filename "error" }
  else if m.type == "complete" then
    { st with
      currentPhase := "classifying"
      batch := { st.batch with
                 status := "completed"
                 completed := m.completed
                 total := m.total } }
  else st

/-- The five event types of the batch push channel, per the spec interface
and the five handler branches. -/
def batchEventTypes : List String :=
  ["preprocessing", "progress", "result", "error", "complete"]

/-- The progress percentage computed by BatchProgressPage.jsx lines 119 to
123: zero when the total is zero; otherwise half-scaled preprocessing
fraction during the preprocessing phase, and fifty plus the half-scaled
completed fraction during the classifying phase. -/
def computeProgress (total completed preCount : Nat) (phase : String) : ℚ :=
  if 0 < total then
    if phase == "preprocessing" then ((preCount : ℚ) / (total : ℚ)) * 50
    else 50 + ((completed : ℚ) / (total : ℚ)) * 50
  else 0

/-! ## Feedback form

The FeedbackForm component, embedded from the second component of
src/unnamed/part_005 (FeedbackForm.jsx): the submitted payload, the options
offered by the two selects, and the disabled condition of the submit
button. -/

/-- The react state of FeedbackForm that shapes the payload. -/
structure FormState where
  feedbackType : String
  correctedClassification : String
  feedbackText : String
  reviewerId : String

/-- The payload posted to the feedback endpoint by handleSubmit. -/
structure FeedbackPayload where
  document_id : String
  original_classification : String
  corrected_classification : Option String
  feedback_type : String
  feedback_text : String
  reviewer_id : String
  prompt_used : Option String
deriving DecidableEq, Repr

/-- The values of the feedback type select, in source order. -/
def feedbackTypeOptions : List String :=
  ["correction", "confirmation", "prompt_suggestion"]

/-- The values of the corrected classification select, in source order; the
empty string is the placeholder option. -/
def correctionOptions : List String :=
  ["", "Public", "Confidential", "Highly Sensitive"]

/-- The payload built by FeedbackForm.handleSubmit (part_005 lines 137 to
146): corrected classification only for corrections, reviewer id defaulting
to anonymous when left empty. -/
def buildFeedbackPayload (docId orig : String) (promptUsed : Option String)
    (st : FormState) : FeedbackPayload :=
  { document_id := docId
    original_classification := orig
    corrected_classification :=
      if st.feedbackType == "correction" then some st.correctedClassification else none
    feedback_type := st.feedbackType
    feedback_text := st.feedbackText
    reviewer_id := if st.reviewerId == "" then "anonymous" else st.reviewerId
    prompt_used := promptUsed }

/-- The disabled condition of the submit button (part_005 line 242). -/
def submitDisabled (isSubmitting : Bool) (st : FormState) : Bool :=
  isSubmitting || (st.feedbackType == "correction" && st.correctedClassification == "")

/-! ## Classification normalizer

normalizeClassification from
src/frontend/src/components/ClassificationCard.jsx lines 4 to 13. JS string
containment is modelled over character lists. -/

/-- Whether the pattern list is an initial segment of the haystack list. -/
def listStarts : List Char → List Char → Bool
  | [], _ => true
  | _ :: _, [] => false
  | a :: as, b :: bs => a == b && listStarts as bs

/-- Whether the pattern occurs as a contiguous run anywhere in the
haystack, as the JS includes method. -/
def listHasRun (pat : List Char) : List Char → Bool
  | [] => listStarts pat []
  | h :: t => listStarts pat (h :: t) || listHasRun pat t

/-- Whitespace for the JS trim, restricted to the common ASCII whitespace. -/
def isSpaceChar (c : Char) : Bool :=
  c == ' ' || c == '\t' || c == '\n' || c == '\r'

/-- The JS trim over character lists: drop whitespace at both ends. -/
def trimChars (l : List Char) : List Char :=
  ((l.dropWhile isSpaceChar).reverse.dropWhile isSpaceChar).reverse

/-- The lowercased and trimmed character list of a string, as the JS
chain of toLowerCase and trim applied in ClassificationCard.jsx. -/
def lowerTrim (s : String) : List Char :=
  trimChars (s.toList.map Char.toLower)

/-- String containment of a pattern in a character list, the JS includes. -/
def strIncludes (s : List Char) (pat : String) : Bool :=
  listHasRun pat.toList s

/-- normalizeClassification of ClassificationCard.jsx: a null or otherwise
falsy input yields Public; otherwise the lowercased trimmed input is matched
for the highly-sensitive patterns, then confidential, then the public
patterns, defaulting to Public. -/
def normalizeClassification (c : Option String) : String :=
  match c with
  | none => "Public"
  | some s =>
      if s == "" then "Public"
      else
        let lower := lowerTrim s
        if strIncludes lower "highly sensitive" || strIncludes lower "highly-sensitive" then
          "Highly Sensitive"
        else if strIncludes lower "confidential" then "Confidential"
        else if strIncludes lower "public" || strIncludes lower "not highly sensitive"
            || strIncludes lower "not highly-sensitive" then "Public"
        else "Public"

/-! ## Auto-Improvement Engine apply step

The engine backend is not part of the snapshot (only
src/AUTO_IMPROVEMENT_GUIDE.md documents it), so the threshold-gated apply
step is modelled from the spec. -/

/-- One stored version of a prompt template. -/
structure PromptVersion where
  version : Nat
  body : String
deriving DecidableEq, Repr

/-- The repository entry for one prompt name: the active version number and
the append-only history, most recent first. -/
structure PromptEntry where
  active_version : Nat
  history : List PromptVersion
deriving DecidableEq, Repr

/-- An improvement suggestion as persisted by the engine. -/
structure ImprovementSuggestion where
  prompt_name : String
  target_version : Nat
  new_body : String
  confidence : ℚ
  auto_applied : Bool
deriving DecidableEq, Repr

/-- Modelled from the spec: step 6 of section 4.4 of the spec and the
thresholds of src/AUTO_IMPROVEMENT_GUIDE.md (the engine source is not under
src). With confidence at or above the threshold the new body is committed as
the next version of the named prompt and the suggestion is marked auto
applied; below the threshold the repository is untouched and the suggestion
is persisted unapplied. Returns the updated repository and the persisted
suggestion. -/
def applySuggestion (threshold : ℚ) (repo : String → PromptEntry)
    (name : String) (newBody : String) (conf : ℚ) :
    (String → PromptEntry) × ImprovementSuggestion :=
  let entry := repo name
  if threshold ≤ conf then
    let newVer := entry.active_version + 1
    (fun n => if n == name then
        { active_version := newVer
          history := { version := newVer, body := newBody } :: entry.history }
      else repo n,
     { prompt_name := name
       target_version := entry.active_version
       new_body := newBody
       confidence := conf
       auto_applied := true })
  else
    (repo,
     { prompt_name := name
       target_version := entry.active_version
       new_body := newBody
       confidence := conf
       auto_applied := false })

/-! ## Theorems -/

/-- C1: for every classification in which both a primary and a secondary call
run and their classification values differ, the produced result has consensus
false and needs review true, reports the primary classification and primary
confidence as its own values, and retains the secondary result attached; the
disagreement is not resolved by averaging or majority. -/
theorem claim_C1_disagreement_consensus (p s : ModelResult) (base : Bool)
    (hne : s.classification ≠ p.classification) :
    (combineResults p (some s) base).consensus = false
    ∧ (combineResults p (some s) base).needs_review = true
    ∧ (combineResults p (some s) base).classification = p.classification
    ∧ (combineResults p (some s) base).confidence = p.confidence
    ∧ (combineResults p (some s) base).secondary_result = some s := by
  have h : (s.classification == p.classification) = false := by
    simp [hne]
  simp [combineResults, h]

/-- C1 witness: a concrete disagreement between a primary Public call and a
secondary Confidential call. -/
theorem claim_C1_disagreement_witness :
    (("Confidential" : String) ≠ "Public")
    ∧ (combineResults ⟨"Public", 9/10⟩ (some ⟨"Confidential", 4/5⟩) false).consensus = false
    ∧ (combineResults ⟨"Public", 9/10⟩ (some ⟨"Confidential", 4/5⟩) false).needs_review = true :=
  ⟨by decide,
   (claim_C1_disagreement_consensus ⟨"Public", 9/10⟩ ⟨"Confidential", 4/5⟩ false
     (by decide)).1,
   (claim_C1_disagreement_consensus ⟨"Public", 9/10⟩ ⟨"Confidential", 4/5⟩ false
     (by decide)).2.1⟩

/-- The tree actually evaluated by select_prompt for a given configuration:
the parsed tree when parsing succeeds, the default tree otherwise. -/
def effectiveTree (config : Option RawNode) : DecisionNode :=
  match config with
  | none => defaultTree
  | some raw => (parseNode raw).getD defaultTree

/-- Tree evaluation always lands on one of the leaf prompt ids of the tree. -/
theorem evalTree_mem_leaves (e : EvidenceBundle) (t : DecisionNode) :
    evalTree e t ∈ leaves t := by
  induction t with
  | leaf p => simp [evalTree, leaves]
  | node pr c tt ff iht ihf =>
      by_cases h : evalCondition e c
      · simp [evalTree, leaves, h, iht]
      · simp [evalTree, leaves, h, ihf]

/-- C2: select_prompt always returns a prompt id (a leaf of the tree it
evaluates) for every evidence bundle; an absent configuration and a
configuration that fails to parse (missing leaf prompt, unknown condition
type) both evaluate the fixed default tree, and that default tree computes
exactly the spec fallback logic - unsafe gives the safety prompt, else
high-risk PII the PII prompt, else images with keywords the image prompt,
else the base prompt. -/
theorem claim_C2_fallback_totality :
    (∀ e, select_prompt none e = evalTree e defaultTree)
    ∧ (∀ raw e, parseNode raw = none →
        select_prompt (some raw) e = evalTree e defaultTree)
    ∧ (∀ cfg e, select_prompt cfg e ∈ leaves (effectiveTree cfg))
    ∧ (∀ e, evalTree e defaultTree = defaultLogicSpec e) := by
  refine ⟨fun e => rfl, ?_, ?_, ?_⟩
  · intro raw e h
    simp [select_prompt, h]
  · intro cfg e
    cases cfg with
    | none => exact evalTree_mem_leaves e defaultTree
    | some raw =>
        cases h : parseNode raw with
        | none => simpa [select_prompt, effectiveTree, h] using
            evalTree_mem_leaves e defaultTree
        | some t => simpa [select_prompt, effectiveTree, h] using
            evalTree_mem_leaves e t
  · intro e
    simp [evalTree, defaultTree, evalCondition, evalAllConds, defaultLogicSpec,
      compareNum, numericField]

/-- C2 witness: a raw tree with an unknown condition type fails to parse and
select_prompt falls back to the default tree on a concrete bundle. -/
theorem claim_C2_fallback_witness :
    parseNode (RawNode.node 1 (RawCondition.unknownCond "mystery")
      (RawNode.leaf (some "a")) (RawNode.leaf (some "b"))) = none
    ∧ select_prompt (some (RawNode.node 1 (RawCondition.unknownCond "mystery")
        (RawNode.leaf (some "a")) (RawNode.leaf (some "b")))) ⟨3, 0, [], [], [], 1⟩
      = evalTree ⟨3, 0, [], [], [], 1⟩ defaultTree :=
  ⟨rfl, claim_C2_fallback_totality.2.1
    (RawNode.node 1 (RawCondition.unknownCond "mystery")
      (RawNode.leaf (some "a")) (RawNode.leaf (some "b"))) ⟨3, 0, [], [], [], 1⟩ rfl⟩

/-- C3: whenever the unsafe pages of a bundle are non-empty, the default tree
selects the safety-focused prompt, whatever the PII findings, keyword
findings and image count are; in particular the bundle with unsafe page 3 and
an SSN finding on page 2 selects the safety-focused prompt. -/
theorem claim_C3_safety_first :
    (∀ e : EvidenceBundle, e.unsafe_pages ≠ [] →
      evalTree e defaultTree = "safety_focused")
    ∧ evalTree ⟨3, 0, [⟨"SSN", 2⟩], [], [3], 1⟩ defaultTree = "safety_focused" := by
  constructor
  · intro e h
    cases hu : e.unsafe_pages with
    | nil => exact absurd hu h
    | cons a t => simp [evalTree, defaultTree, evalCondition, hu]
  · decide

/-- C3 witness: the spec example bundle, applied to the general statement. -/
theorem claim_C3_safety_witness :
    ((⟨3, 0, [⟨"SSN", 2⟩], [], [3], 1⟩ : EvidenceBundle).unsafe_pages ≠ [])
    ∧ evalTree ⟨3, 0, [⟨"SSN", 2⟩], [], [3], 1⟩ defaultTree = "safety_focused" :=
  ⟨by decide, claim_C3_safety_first.1 ⟨3, 0, [⟨"SSN", 2⟩], [], [3], 1⟩ (by decide)⟩

/-- C4: an improvement suggestion below the configured threshold is persisted
with auto applied false and leaves the repository untouched; one at or above
the threshold is marked auto applied, bumps the active version of exactly
that prompt by one and prepends the new body to its history, leaving every
other prompt unchanged. -/
theorem claim_C4_confidence_gate (t conf : ℚ) (repo : String → PromptEntry)
    (name body : String) :
    (conf < t →
      (applySuggestion t repo name body conf).2.auto_applied = false
      ∧ ∀ n, (applySuggestion t repo name body conf).1 n = repo n)
    ∧ (t ≤ conf →
      (applySuggestion t repo name body conf).2.auto_applied = true
      ∧ ((applySuggestion t repo name body conf).1 name).active_version
          = (repo name).active_version + 1
      ∧ ((applySuggestion t repo name body conf).1 name).history
          = { version := (repo name).active_version + 1, body := body }
              :: (repo name).history
      ∧ ∀ n, n ≠ name → (applySuggestion t repo name body conf).1 n = repo n) := by
  constructor
  · intro h
    have h2 : ¬ t ≤ conf := not_le.mpr h
    refine ⟨?_, ?_⟩
    · simp [applySuggestion, h2]
    · intro n
      simp [applySuggestion, h2]
  · intro h
    refine ⟨?_, ?_, ?_, ?_⟩
    · simp [applySuggestion, h]
    · simp [applySuggestion, h]
    · simp [applySuggestion, h]
    · intro n hn
      simp [applySuggestion, h, hn]

/-- C4 witness: with the default threshold of three quarters, a half-confidence
suggestion is not applied and a four-fifths suggestion is. -/
theorem claim_C4_confidence_witness :
    ((1 : ℚ)/2 < 3/4)
    ∧ (applySuggestion (3/4) (fun _ => ⟨1, [⟨1, "b0"⟩]⟩)
        "base_classification" "b1" (1/2)).2.auto_applied = false
    ∧ ((3 : ℚ)/4 ≤ 4/5)
    ∧ (applySuggestion (3/4) (fun _ => ⟨1, [⟨1, "b0"⟩]⟩)
        "base_classification" "b2" (4/5)).2.auto_applied = true :=
  ⟨by norm_num,
   ((claim_C4_confidence_gate (3/4) (1/2) (fun _ => ⟨1, [⟨1, "b0"⟩]⟩)
      "base_classification" "b1").1 (by norm_num)).1,
   by norm_num,
   ((claim_C4_confidence_gate (3/4) (4/5) (fun _ => ⟨1, [⟨1, "b0"⟩]⟩)
      "base_classification" "b2").2 (by norm_num)).1⟩

/-- C5: batch-level status is processing exactly while some task is
non-terminal and completed exactly when every task is terminal; in the
subscriber, a progress event pins the status to processing, only a complete
event sets it to completed, and the complete event carries the final
completed and total counts into the state. -/
theorem claim_C5_batch_completion :
    (∀ tasks : List TaskStatus,
      batchStatusOf tasks = "completed" ↔ ∀ t ∈ tasks, isTerminal t = true)
    ∧ (∀ tasks : List TaskStatus,
      batchStatusOf tasks = "processing" ↔ ∃ t ∈ tasks, isTerminal t = false)
    ∧ (∀ st m, m.type = "progress" → (handleMessage st m).batch.status = "processing")
    ∧ (∀ st m, m.type = "complete" →
        (handleMessage st m).batch.status = "completed"
        ∧ (handleMessage st m).batch.completed = m.completed
        ∧ (handleMessage st m).batch.total = m.total)
    ∧ (∀ st m, st.batch.status ≠ "completed" →
        (handleMessage st m).batch.status = "completed" → m.type = "complete") := by
  refine ⟨?_, ?_, ?_, ?_, ?_⟩
  · intro tasks
    by_cases h : tasks.all isTerminal = true
    · have hall := List.all_eq_true.mp h
      simp [batchStatusOf, h]
      exact hall
    · simp [batchStatusOf, h]
      have h2 := h
      simp only [List.all_eq_true] at h2
      push_neg at h2
      obtain ⟨t, ht, hf⟩ := h2
      exact ⟨t, ht, by simpa using hf⟩
  · intro tasks
    by_cases h : tasks.all isTerminal = true
    · have hall := List.all_eq_true.mp h
      simp [batchStatusOf, h]
      intro t ht
      exact hall t ht
    · simp [batchStatusOf, h]
      have h2 := h
      simp only [List.all_eq_true] at h2
      push_neg at h2
      obtain ⟨t, ht, hf⟩ := h2
      exact ⟨t, ht, by simpa using hf⟩
  · intro st m h
    by_cases hd : m.document_id = ""
    · simp [handleMessage, h, hd]
    · simp [handleMessage, h, hd]
  · intro st m h
    simp [handleMessage, h]
  · intro st m hne hc
    by_cases h1 : m.type = "preprocessing"
    · exact absurd (by simpa [handleMessage, h1] using hc) hne
    by_cases h2 : m.type = "progress"
    · by_cases hd : m.document_id = "" <;>
        simp [handleMessage, h1, h2, hd] at hc
    by_cases h3 : m.type = "result"
    · cases hp : m.preprocessing with
      | some p =>
          exact absurd (by simpa [handleMessage, h1, h2, h3, hp] using hc) hne
      | none =>
          exact absurd (by simpa [handleMessage, h1, h2, h3, hp] using hc) hne
    by_cases h4 : m.type = "error"
    · exact absurd (by simpa [handleMessage, h1, h2, h3, h4] using hc) hne
    by_cases h5 : m.type = "complete"
    · exact h5
    · exact absurd (by simpa [handleMessage, h1, h2, h3, h4, h5] using hc) hne

/-- C5 witness: applying the complete-event clause to a concrete state and
message. -/
theorem claim_C5_batch_witness :
    ((⟨"complete", "", 3, 3, "", "", "", "", none⟩ : BatchMessage).type = "complete")
    ∧ (handleMessage
        ⟨⟨"processing", 3, 2, [], []⟩, fun _ => none, "", [], "classifying"⟩
        ⟨"complete", "", 3, 3, "", "", "", "", none⟩).batch.status = "completed"
    ∧ (handleMessage
        ⟨⟨"processing", 3, 2, [], []⟩, fun _ => none, "", [], "classifying"⟩
        ⟨"complete", "", 3, 3, "", "", "", "", none⟩).batch.completed = 3 :=
  ⟨rfl,
   (claim_C5_batch_completion.2.2.2.1
     ⟨⟨"processing", 3, 2, [], []⟩, fun _ => none, "", [], "classifying"⟩
     ⟨"complete", "", 3, 3, "", "", "", "", none⟩ rfl).1,
   (claim_C5_batch_completion.2.2.2.1
     ⟨⟨"processing", 3, 2, [], []⟩, fun _ => none, "", [], "classifying"⟩
     ⟨"complete", "", 3, 3, "", "", "", "", none⟩ rfl).2.1⟩

/-- C6: an error event changes only the failing document - it appends the
filename and error message to the error list, increments the completed count
by exactly one and marks that document error, while every other document
status, the results list, the total and the batch status stay unchanged. -/
theorem claim_C6_error_frame (st : SubscriberState) (m : BatchMessage)
    (h : m.type = "error") :
    (handleMessage st m).batch.errors
      = st.batch.errors ++ [{ filename := m.filename, error := m.error }]
    ∧ (handleMessage st m).batch.completed = st.batch.completed + 1
    ∧ (handleMessage st m).documentStatuses m.filename = some "error"
    ∧ (∀ id, id ≠ m.filename →
        (handleMessage st m).documentStatuses id = st.documentStatuses id)
    ∧ (handleMessage st m).batch.results = st.batch.results
    ∧ (handleMessage st m).batch.total = st.batch.total
    ∧ (handleMessage st m).batch.status = st.batch.status := by
  refine ⟨?_, ?_, ?_, ?_, ?_, ?_, ?_⟩
  · simp [handleMessage, h]
  · simp [handleMessage, h]
  · simp [handleMessage, h, setDocStatus]
  · intro id hid
    simp [handleMessage, h, setDocStatus, hid]
  · simp [handleMessage, h]
  · simp [handleMessage, h]
  · simp [handleMessage, h]

/-- C6 witness: a concrete error event for document d2 in a three-document
batch leaves d1 and d3 untouched. -/
theorem claim_C6_error_witness :
    ((⟨"error", "", 0, 0, "", "d2", "boom", "", none⟩ : BatchMessage).type = "error")
    ∧ (handleMessage
        ⟨⟨"processing", 3, 1, ["r1"], []⟩,
          (fun x => if x == "d1" then some "completed" else none), "", [], "classifying"⟩
        ⟨"error", "", 0, 0, "", "d2", "boom", "", none⟩).documentStatuses "d2"
        = some "error"
    ∧ (handleMessage
        ⟨⟨"processing", 3, 1, ["r1"], []⟩,
          (fun x => if x == "d1" then some "completed" else none), "", [], "classifying"⟩
        ⟨"error", "", 0, 0, "", "d2", "boom", "", none⟩).documentStatuses "d1"
        = some "completed" := by
  refine ⟨rfl, ?_, ?_⟩
  · exact (claim_C6_error_frame
      ⟨⟨"processing", 3, 1, ["r1"], []⟩,
        (fun x => if x == "d1" then some "completed" else none), "", [], "classifying"⟩
      ⟨"error", "", 0, 0, "", "d2", "boom", "", none⟩ rfl).2.2.1
  · have := (claim_C6_error_frame
      ⟨⟨"processing", 3, 1, ["r1"], []⟩,
        (fun x => if x == "d1" then some "completed" else none), "", [], "classifying"⟩
      ⟨"error", "", 0, 0, "", "d2", "boom", "", none⟩ rfl).2.2.2.1 "d1" (by decide)
    simpa using this

/-- C7: the subscriber handler has a branch for each of the five batch event
types - every known type sets the phase its branch establishes - and a
message of any other type leaves the subscriber state unchanged. -/
theorem claim_C7_event_types :
    (∀ st m, m.type ∉ batchEventTypes → handleMessage st m = st)
    ∧ (∀ st m, m.type ∈ batchEventTypes →
        (handleMessage st m).currentPhase
          = if m.type = "preprocessing" then "preprocessing" else "classifying") := by
  constructor
  · intro st m h
    simp only [batchEventTypes, List.mem_cons, List.not_mem_nil, or_false] at h
    push_neg at h
    obtain ⟨h1, h2, h3, h4, h5⟩ := h
    simp [handleMessage, h1, h2, h3, h4, h5]
  · intro st m h
    simp only [batchEventTypes, List.mem_cons, List.not_mem_nil, or_false] at h
    rcases h with h | h | h | h | h
    · simp [handleMessage, h]
    · by_cases hd : m.document_id = "" <;> simp [handleMessage, h, hd]
    · cases hp : m.preprocessing <;> simp [handleMessage, h, hp]
    · simp [handleMessage, h]
    · simp [handleMessage, h]

/-- C7 witness: an unknown event type leaves a concrete state unchanged, and
a progress event moves the same state to the classifying phase. -/
theorem claim_C7_event_witness :
    ((⟨"bogus", "", 0, 0, "", "", "", "", none⟩ : BatchMessage).type ∉ batchEventTypes)
    ∧ handleMessage
        ⟨⟨"processing", 2, 0, [], []⟩, fun _ => none, "", [], "preprocessing"⟩
        ⟨"bogus", "", 0, 0, "", "", "", "", none⟩
      = ⟨⟨"processing", 2, 0, [], []⟩, fun _ => none, "", [], "preprocessing"⟩
    ∧ (handleMessage
        ⟨⟨"processing", 2, 0, [], []⟩, fun _ => none, "", [], "preprocessing"⟩
        ⟨"progress", "f.pdf", 1, 0, "d1", "", "", "", none⟩).currentPhase
      = "classifying" := by
  refine ⟨by decide, ?_, ?_⟩
  · exact claim_C7_event_types.1
      ⟨⟨"processing", 2, 0, [], []⟩, fun _ => none, "", [], "preprocessing"⟩
      ⟨"bogus", "", 0, 0, "", "", "", "", none⟩ (by decide)
  · have := claim_C7_event_types.2
      ⟨⟨"processing", 2, 0, [], []⟩, fun _ => none, "", [], "preprocessing"⟩
      ⟨"progress", "f.pdf", 1, 0, "d1", "", "", "", none⟩ (by decide)
    simpa using this

/-- C8: a payload submitted by the feedback form has a feedback type among
correction, confirmation and prompt suggestion, carries a corrected
classification exactly when the type is correction (and then a non-empty one,
since submission is disabled for a correction with no selection), and the
reviewer id defaults to anonymous exactly when the reviewer field was left
empty. -/
theorem claim_C8_feedback_payload (docId orig : String) (promptUsed : Option String)
    (st : FormState) (hty : st.feedbackType ∈ feedbackTypeOptions)
    (hen : submitDisabled false st = false) :
    (buildFeedbackPayload docId orig promptUsed st).feedback_type ∈ feedbackTypeOptions
    ∧ ((buildFeedbackPayload docId orig promptUsed st).corrected_classification ≠ none
        ↔ (buildFeedbackPayload docId orig promptUsed st).feedback_type = "correction")
    ∧ ((buildFeedbackPayload docId orig promptUsed st).feedback_type = "correction"
        → (buildFeedbackPayload docId orig promptUsed st).corrected_classification
            ≠ some "")
    ∧ (st.reviewerId = ""
        → (buildFeedbackPayload docId orig promptUsed st).reviewer_id = "anonymous")
    ∧ (st.reviewerId ≠ ""
        → (buildFeedbackPayload docId orig promptUsed st).reviewer_id = st.reviewerId) := by
  by_cases hc : st.feedbackType = "correction"
  · have hcc : st.correctedClassification ≠ "" := by
      simp [submitDisabled, hc] at hen
      exact hen
    refine ⟨by simpa [buildFeedbackPayload] using hty, ?_, ?_, ?_, ?_⟩
    · simp [buildFeedbackPayload, hc]
    · intro _
      simp [buildFeedbackPayload, hc, hcc]
    · intro hr
      simp [buildFeedbackPayload, hr]
    · intro hr
      simp [buildFeedbackPayload, hr]
  · refine ⟨by simpa [buildFeedbackPayload] using hty, ?_, ?_, ?_, ?_⟩
    · simp [buildFeedbackPayload, hc]
    · intro habs
      simp [buildFeedbackPayload] at habs
      exact absurd habs hc
    · intro hr
      simp [buildFeedbackPayload, hr]
    · intro hr
      simp [buildFeedbackPayload, hr]

/-- C8 witness: a concrete correction with an empty reviewer field. -/
theorem claim_C8_feedback_witness :
    ((⟨"correction", "Public", "note", ""⟩ : FormState).feedbackType ∈ feedbackTypeOptions)
    ∧ submitDisabled false ⟨"correction", "Public", "note", ""⟩ = false
    ∧ (buildFeedbackPayload "doc1" "Confidential" none
        ⟨"correction", "Public", "note", ""⟩).reviewer_id = "anonymous"
    ∧ (buildFeedbackPayload "doc1" "Confidential" none
        ⟨"correction", "Public", "note", ""⟩).corrected_classification = some "Public" :=
  ⟨by decide, by decide,
   (claim_C8_feedback_payload "doc1" "Confidential" none
     ⟨"correction", "Public", "note", ""⟩ (by decide) (by decide)).2.2.2.1 rfl,
   rfl⟩

/-- C9: normalizeClassification always returns one of Public, Confidential
and Highly Sensitive - never Unsafe - returning Public for a null input and
for any input matching none of the recognition patterns; and the corrected
classification select of the feedback form offers exactly these three values
besides its empty placeholder. -/
theorem claim_C9_normalize_total :
    (∀ c, normalizeClassification c ∈ ["Public", "Confidential", "Highly Sensitive"])
    ∧ (∀ c, normalizeClassification c ≠ "Unsafe")
    ∧ normalizeClassification none = "Public"
    ∧ (∀ s : String, strIncludes (lowerTrim s) "highly sensitive" = false →
        strIncludes (lowerTrim s) "highly-sensitive" = false →
        strIncludes (lowerTrim s) "confidential" = false →
        normalizeClassification (some s) = "Public")
    ∧ correctionOptions.filter (fun o => o != "")
        = ["Public", "Confidential", "Highly Sensitive"] := by
  have hmem : ∀ c, normalizeClassification c ∈ ["Public", "Confidential", "Highly Sensitive"] := by
    intro c
    cases c with
    | none => simp [normalizeClassification]
    | some s =>
        simp only [normalizeClassification]
        split_ifs <;> simp
  refine ⟨hmem, ?_, rfl, ?_, by decide⟩
  · intro c
    have h := hmem c
    simp only [List.mem_cons, List.not_mem_nil, or_false] at h
    rcases h with h | h | h <;> simp [h]
  · intro s h1 h2 h3
    simp only [normalizeClassification, h1, h2, h3]
    split_ifs <;> simp_all

/-- C9 witness: a string matching no pattern normalizes to Public. -/
theorem claim_C9_normalize_witness :
    strIncludes (lowerTrim "gibberish") "highly sensitive" = false
    ∧ strIncludes (lowerTrim "gibberish") "highly-sensitive" = false
    ∧ strIncludes (lowerTrim "gibberish") "confidential" = false
    ∧ normalizeClassification (some "gibberish") = "Public" :=
  ⟨by decide, by decide, by decide,
   claim_C9_normalize_total.2.2.2.1 "gibberish" (by decide) (by decide) (by decide)⟩

/-- C10: the displayed batch progress is the preprocessing fraction scaled to
the first half during the preprocessing phase, fifty plus the completed
fraction scaled to the second half during the classifying phase, and exactly
zero whenever the total is zero, so the division is guarded by a positive
total. -/
theorem claim_C10_progress_guard (total completed preCount : Nat) (phase : String) :
    (total = 0 → computeProgress total completed preCount phase = 0)
    ∧ (0 < total → phase = "preprocessing" →
        computeProgress total completed preCount phase
          = ((preCount : ℚ) / (total : ℚ)) * 50)
    ∧ (0 < total → phase ≠ "preprocessing" →
        computeProgress total completed preCount phase
          = 50 + ((completed : ℚ) / (total : ℚ)) * 50) := by
  refine ⟨?_, ?_, ?_⟩
  · intro h
    simp [computeProgress, h]
  · intro h hp
    simp [computeProgress, h, hp]
  · intro h hp
    simp [computeProgress, h, hp]

/-- C10 witness: a classifying-phase batch of two documents with one
completed stands at seventy-five percent. -/
theorem claim_C10_progress_witness :
    (0 < 2) ∧ (("classifying" : String) ≠ "preprocessing")
    ∧ computeProgress 2 1 1 "classifying"
        = 50 + (((1 : Nat) : ℚ) / ((2 : Nat) : ℚ)) * 50 :=
  ⟨by decide, by decide,
   (claim_C10_progress_guard 2 1 1 "classifying").2.2 (by decide) (by decide)⟩

end RegClassifier
